import Mathlib

/-!
Shallow embedding of the `freecad_server` job-orchestration core.

The definitions below are translated from the repository's Python source:

* `worker.py` — `execute_freecad_script`, `generate_pdf_from_step`,
  `generate_json_from_step`, the heartbeat loop and `_extract_error_hint`;
* `app.py` — the `/status`, `/result` and `/download` endpoint handlers;
* `mqtt_client.py` — `MQTTProgressManager._on_message` merging and the
  `publish_progress` / `publish_status` payload construction.

External effects (the CAD subprocess, the filesystem, the converters) are
modelled by explicit environment values describing their observable
behaviour; file names are modelled as `List Char` so that Python string
slicing and containment translate directly.
-/

namespace FreecadServer

/-- Boolean substring containment on character lists, modelling the Python
expression `needle in hay` for strings. -/
def containsSub (needle : List Char) : List Char → Bool
  | [] => needle.isEmpty
  | c :: t => needle.isPrefixOf (c :: t) || containsSub needle t

/-- Index of the last `.` in a name, if any (Python `name.rfind('.')` when
the result is non-negative). -/
def rfindDot (p : List Char) : Option Nat :=
  if '.' ∈ p.reverse then some (p.length - 1 - p.reverse.findIdx (· = '.'))
  else none

/-- Python `os.path.splitext` restricted to a basename (no `/` handling is
needed because the worker only applies it to basenames produced by
`os.walk`): split at the last dot provided some character strictly before it
is not a dot; otherwise the extension is empty. -/
def splitextL (p : List Char) : List Char × List Char :=
  match rfindDot p with
  | none => (p, [])
  | some i => if (p.take i).any (fun c => c ≠ '.') then (p.take i, p.drop i) else (p, [])

/-- The final path component (Python `PurePath.name`): everything after the
last `/`. -/
def lastComp (p : List Char) : List Char :=
  ((p.reverse.takeWhile (· ≠ '/')).reverse)

/-- Python `pathlib.Path(...).stem` of a path: the final component without
its suffix, where a suffix exists only when the last dot is at an index `i`
with `0 < i < len(name) - 1`. -/
def pathStemL (p : List Char) : List Char :=
  let name := lastComp p
  match rfindDot name with
  | none => name
  | some i => if 0 < i ∧ i < name.length - 1 then name.take i else name

/-- New filename computed during primary-artifact promotion in
`execute_freecad_script`:
`f"{os.path.splitext(file)[0]}_{user_id}{os.path.splitext(file)[1]}"`. -/
def primaryNewFilename (file uid : List Char) : List Char :=
  (splitextL file).1 ++ '_' :: uid ++ (splitextL file).2

/-- Base filename shared by the two converters:
`f"{Path(step_file_path).stem}_{user_id}"` (`generate_pdf_from_step` and
`generate_json_from_step`). -/
def convBaseFilename (stepPath uid : List Char) : List Char :=
  pathStemL stepPath ++ '_' :: uid

/-- Filename of the derived PDF artifact: `f"{base_filename}.pdf"`. -/
def pdfFilename (stepPath uid : List Char) : List Char :=
  convBaseFilename stepPath uid ++ ".pdf".toList

/-- Filename of the derived JSON artifact: `f"{base_filename}.json"`. -/
def jsonFilename (stepPath uid : List Char) : List Char :=
  convBaseFilename stepPath uid ++ ".json".toList

/-- Storage root used by the worker (`STORAGE_PATH` in `worker.py`, default
value of the environment variable). -/
def STORAGE_PATH : String := "/app/storage"

/-- Python `str.splitlines` restricted to `\n` terminators (subprocess
output is read in text mode with universal newlines). -/
def pySplitlines (s : String) : List String :=
  if s = "" then []
  else if s.endsWith "\n" then (s.splitOn "\n").dropLast
  else s.splitOn "\n"

/-- Python `lines[-50:]`. -/
def last50 (l : List String) : List String := l.drop (l.length - 50)

/-- The diagnostic tail handed to `_extract_error_hint`:
`"\n".join((text or "").splitlines()[-50:])`. -/
def tailJoin (s : String) : String :=
  String.intercalate "\n" (last50 (pySplitlines s))

/-- Python `str.lower`. -/
def pyLower (s : String) : String := s.map Char.toLower

/-- Substring containment on strings (Python `needle in hay`). -/
def strHas (hay needle : String) : Bool := containsSub needle.toList hay.toList

/-- Translation of `_extract_error_hint` (`worker.py`): pattern-match the
lowered concatenation of the stdout and stderr tails against a fixed table
of known failure signatures and return a human-readable hint. -/
def _extract_error_hint (stdoutText stderrText : String) : String :=
  let text := pyLower (stdoutText ++ "\n" ++ stderrText)
  if strHas text "modulenotfounderror" || strHas text "no module named" then
    "ImportError: missing module. Verify FreeCadUtil and workbench imports, or sys.path."
  else if strHas text "attributeerror" && strHas text "maketub" then
    "AttributeError: Part.makeTub missing. Ensure FreeCadUtil monkey patch is loaded."
  else if strHas text "permission denied" then
    "Permission issue writing outputs. Verify container paths and permissions."
  else if strHas text "traceback" && strHas text "export" && strHas text ".step" then
    "STEP export failed. Ensure shapes are valid solids and export path exists."
  else if strHas text "wkhtmltopdf" && strHas text "not found" then
    "wkhtmltopdf missing. PDF generation may fail; check worker image deps."
  else if strHas text "precision" && strHas text "approximation" then
    "FreeCAD Precision API mismatch. Ensure FreeCAD 0.21+/1.0 compatibility fixes are applied."
  else
    "See stdout_tail/stderr_tail for details."

/-- Heartbeat wait between publishes: `heartbeat_stop.wait(timeout=5)`. -/
def heartbeatInterval : Nat := 5

/-- The synthetic heartbeat progress counter (`heartbeat_progress["value"]`
in `execute_freecad_script`): starts at 25 and each loop iteration sets it
to `min(value + 2, 35)` before publishing. -/
def heartbeatValue : Nat → Nat
  | 0 => 25
  | n + 1 => min (heartbeatValue n + 2) 35

/-- One event published by `heartbeat_worker`. -/
structure HeartbeatEvent where
  progress : Nat
  status : String
deriving Repr, DecidableEq

/-- The event published on the `tick`-th heartbeat iteration (the counter is
incremented before the publish, so tick `t` publishes `heartbeatValue (t+1)`
with status `running`). -/
def heartbeatPublished (tick : Nat) : HeartbeatEvent :=
  { progress := heartbeatValue (tick + 1), status := "running" }

/-- The whole sequence published by the heartbeat task when the stop event
is first observed during the wait of iteration `stopTick` (one publish per
completed iteration). -/
def heartbeatRun (stopTick : Nat) : List HeartbeatEvent :=
  (List.range stopTick).map heartbeatPublished

/-- An artifact dict as built by the worker (`{"type": ..., "path": ...,
"filename": ...}`); `path` is `dir ++ "/" ++ filename`. -/
structure FileInfo where
  ftype : String
  dir : String
  filename : List Char
deriving Repr, DecidableEq

/-- Recognized primary artifact names: `file.endswith(('.step', '.obj'))`. -/
def isArtifactName (f : List Char) : Bool :=
  ".step".toList.isSuffixOf f || ".obj".toList.isSuffixOf f

/-- Sub-type tag of a promoted primary artifact:
`"step" if file.endswith('.step') else "obj"`. -/
def fileTypeOf (f : List Char) : String :=
  if ".step".toList.isSuffixOf f then "step" else "obj"

/-- Artifact promotion from a search directory (both the per-user working
directory walk and the `cad_outputs_generated` fallback walk in
`execute_freecad_script` promote every matching file with
`primaryNewFilename` into `STORAGE_PATH`). -/
def promoteFiles (files : List (List Char)) (uid : List Char) : List FileInfo :=
  (files.filter isArtifactName).map fun f =>
    { ftype := fileTypeOf f, dir := STORAGE_PATH, filename := primaryNewFilename f uid }

/-- Observable behaviour of the `technical_drawing_generator` collaborator
inside `generate_pdf_from_step`: the import may fail, the call may raise, or
it returns a result dict with a `success` flag and a (possibly empty)
`pdf_path`. -/
inductive PdfEnv where
  | importError
  | raised (msg : String)
  | result (success : Bool) (pdfPathOk : Bool) (message : String)

/-- Observable behaviour of the second `freecadcmd` subprocess launched by
`generate_json_from_step`: import failure, timeout, raised exception, or
completion with an exit code, captured output and whether the JSON file was
created. -/
inductive JsonEnv where
  | importError
  | timeout
  | raised (msg : String)
  | completed (rc : Int) (stdoutc stderrc : String) (jsonCreated : Bool)

/-- Return dict of either converter (only the keys the caller reads). -/
structure ConvOutcome where
  status : String
  error : Option String
  filename : Option (List Char)
deriving Repr, DecidableEq

/-- Translation of `generate_pdf_from_step` (`worker.py`). -/
def generate_pdf_from_step (env : PdfEnv) (stepName uid : List Char) : ConvOutcome :=
  match env with
  | .importError =>
      { status := "failed",
        error := some "PDF generation not available - technical_drawing_generator not found",
        filename := none }
  | .raised e =>
      { status := "failed", error := some ("PDF generation failed: " ++ e), filename := none }
  | .result ok pathOk msg =>
      if ok && pathOk then
        { status := "success", error := none, filename := some (pdfFilename stepName uid) }
      else
        { status := "failed", error := some msg, filename := none }

/-- Translation of `generate_json_from_step` (`worker.py`). -/
def generate_json_from_step (env : JsonEnv) (stepName uid : List Char) : ConvOutcome :=
  match env with
  | .importError =>
      { status := "failed",
        error := some "JSON generation not available - step_converter not found",
        filename := none }
  | .timeout =>
      { status := "failed",
        error := some "JSON generation timed out after 1 hour. This may happen with very large/complex STEP files.",
        filename := none }
  | .raised e =>
      { status := "failed", error := some ("JSON generation failed: " ++ e), filename := none }
  | .completed rc _ errOut created =>
      if rc = 0 then
        if created then
          { status := "success", error := none, filename := some (jsonFilename stepName uid) }
        else
          { status := "failed",
            error := some ("JSON file was not created at " ++ STORAGE_PATH ++ "/"
              ++ String.mk (jsonFilename stepName uid)),
            filename := none }
      else
        { status := "failed",
          error := some ("FreeCAD command failed with return code " ++ toString rc
            ++ (if errOut ≠ "" then ": " ++ errOut.take 500 else "")),
          filename := none }

/-- Outcome of the main `freecadcmd` subprocess supervised by
`execute_freecad_script`: either `communicate(timeout=3600)` raised
`TimeoutExpired` (the process is killed and the invocation fails), or the
process completed with an exit code and captured output. -/
inductive ProcOutcome where
  | timeout
  | completed (rc : Int) (stdoutc stderrc : String)

/-- An exception reaching the outer `try` of `execute_freecad_script` from
the launch/supervision region (everything before the cleanup `rmtree`):
either a stray `subprocess.TimeoutExpired` or any other exception. -/
inductive RaisedKind where
  | timeoutExpired
  | exc (msg : String)

/-- Environment describing the observable behaviour of all external
collaborators during one `execute_freecad_script` invocation.  The per-file
converter behaviours are indexed by the position of the primary artifact in
`generated_files`. -/
structure WorkerEnv where
  raised : Option RaisedKind
  proc : ProcOutcome
  userDirFiles : List (List Char)
  cadOutDirExists : Bool
  cadOutFiles : List (List Char)
  pdf : Nat → PdfEnv
  json : Nat → JsonEnv

/-- The dict returned by `execute_freecad_script` (only the keys its
callers and the claims read; `errorHint` is `details["error_hint"]` when a
`details` payload is attached). -/
structure WorkerReturn where
  status : String
  error : Option String
  files : Option (List FileInfo)
  errorHint : Option String
deriving Repr, DecidableEq

/-- Return value of the invocation together with its frame effect on the
per-owner working directory `STORAGE_PATH/user_{user_id}`: whether the
`shutil.rmtree(user_output_dir, ignore_errors=True)` call was reached. -/
structure WorkerOutcome where
  ret : WorkerReturn
  userDirRemoved : Bool
deriving Repr, DecidableEq

/-- The `for i, file_info in enumerate(generated_files)` loop of
`execute_freecad_script`: for every promoted `step` artifact run the PDF
converter (collecting successes, merely logging failures) and then the JSON
converter (collecting successes, aborting the whole invocation with the
conversion's error on failure).  Returns the accumulated
`(pdf_files, json_files)` or the fatal JSON error. -/
def convLoop (pdfEnv : Nat → PdfEnv) (jsonEnv : Nat → JsonEnv) (uid : List Char) :
    Nat → List FileInfo → List FileInfo × List FileInfo →
    Except String (List FileInfo × List FileInfo)
  | _, [], acc => .ok acc
  | i, f :: rest, (pdfs, jsons) =>
    if f.ftype = "step" then
      let pdfRes := generate_pdf_from_step (pdfEnv i) f.filename uid
      let pdfs' := if pdfRes.status = "success" then
          pdfs ++ [{ ftype := "pdf", dir := STORAGE_PATH,
                     filename := pdfRes.filename.getD [] }]
        else pdfs
      let jsonRes := generate_json_from_step (jsonEnv i) f.filename uid
      if jsonRes.status = "success" then
        convLoop pdfEnv jsonEnv uid (i + 1) rest
          (pdfs', jsons ++ [{ ftype := "json", dir := STORAGE_PATH,
                              filename := jsonRes.filename.getD [] }])
      else
        .error (jsonRes.error.getD "Unknown error during JSON generation")
    else
      convLoop pdfEnv jsonEnv uid (i + 1) rest (pdfs, jsons)

/-- The list of promoted primary artifacts of an invocation: the walk of
the per-user working directory, falling back to the
`/app/cad_outputs_generated` walk (when that directory exists) if the first
walk promoted nothing. -/
def generatedFiles (env : WorkerEnv) (uid : List Char) : List FileInfo :=
  let gen0 := promoteFiles env.userDirFiles uid
  if gen0.isEmpty then
    if env.cadOutDirExists then promoteFiles env.cadOutFiles uid else []
  else gen0

/-- Translation of `execute_freecad_script` (`worker.py`).  The MQTT
publishes along the way are modelled separately (`heartbeatPublished`,
`publish_progress_payload`); this function captures the returned dict and
the working-directory frame effect. -/
def execute_freecad_script (env : WorkerEnv) (uid : List Char) : WorkerOutcome :=
  match env.raised with
  | some .timeoutExpired =>
      { ret := { status := "failed", error := some "FreeCAD command timed out after 5 minutes",
                 files := none, errorHint := none },
        userDirRemoved := false }
  | some (.exc m) =>
      { ret := { status := "failed", error := some ("Unexpected error: " ++ m),
                 files := none, errorHint := none },
        userDirRemoved := false }
  | none =>
    match env.proc with
    | .timeout =>
        { ret := { status := "failed", error := some "FreeCAD command timed out after 1 hour",
                   files := none, errorHint := none },
          userDirRemoved := false }
    | .completed rc out err =>
      if rc = 0 then
        let gen := generatedFiles env uid
        -- the unconditional `shutil.rmtree(user_output_dir)` sits here,
        -- after promotion and before the no-artifacts check
        if gen.isEmpty then
          { ret := { status := "failed", error := some "No STEP or OBJ files were generated",
                     files := none,
                     errorHint := some (_extract_error_hint (tailJoin out) (tailJoin err)) },
            userDirRemoved := true }
        else
          match convLoop env.pdf env.json uid 0 gen ([], []) with
          | .ok (pdfs, jsons) =>
              { ret := { status := "success", error := none,
                         files := some (gen ++ pdfs ++ jsons), errorHint := none },
                userDirRemoved := true }
          | .error e =>
              { ret := { status := "failed", error := some e, files := none, errorHint := none },
                userDirRemoved := true }
      else
        { ret := { status := "failed",
                   error := some ("FreeCAD command failed with exit code " ++ toString rc),
                   files := none,
                   errorHint := some (_extract_error_hint (tailJoin out) (tailJoin err)) },
          userDirRemoved := false }

/-- The first fatal JSON-conversion error among the promoted `step`
artifacts, scanning in loop order and ignoring the PDF converter entirely
(specification-side companion of `convLoop` used to state claim C2). -/
def firstJsonError (jsonEnv : Nat → JsonEnv) (uid : List Char) :
    Nat → List FileInfo → Option String
  | _, [] => none
  | i, f :: rest =>
    if f.ftype = "step" then
      let jsonRes := generate_json_from_step (jsonEnv i) f.filename uid
      if jsonRes.status = "success" then firstJsonError jsonEnv uid (i + 1) rest
      else some (jsonRes.error.getD "Unknown error during JSON generation")
    else firstJsonError jsonEnv uid (i + 1) rest

/-- The per-owner in-memory record kept by `MQTTProgressManager`
(`progress_data[user_id]` in `mqtt_client.py`). -/
structure ProgressRecord where
  status : String
  progress : Int
  message : String
  updatedAt : Option String
  error : Option String
deriving Repr, DecidableEq

/-- Record created on first message for an owner (`_on_message`). -/
def defaultRecord : ProgressRecord :=
  { status := "unknown", progress := 0, message := "", updatedAt := none, error := none }

/-- Fields of a parsed MQTT payload relevant to `_on_message` merging; a
`none` field models the key being absent from the JSON object (the
publishers below never emit a present-but-null `error`). -/
structure EventPayload where
  progress : Option Int
  status : Option String
  message : Option String
  error : Option String
deriving Repr, DecidableEq

/-- Translation of the merge in `MQTTProgressManager._on_message`: fields
present in the incoming event overwrite the record, absent fields retain
their prior values, and the record is stamped with the receipt time. -/
def applyEvent (rec : Option ProgressRecord) (ev : EventPayload) (now : String) :
    ProgressRecord :=
  let r := rec.getD defaultRecord
  { progress := ev.progress.getD r.progress
    status := ev.status.getD r.status
    message := ev.message.getD r.message
    error := match ev.error with
             | some e => some e
             | none => r.error
    updatedAt := some now }

/-- Payload built by `MQTTProgressManager.publish_progress`: always carries
`progress`, `status` and `message`; the `error` key is added only when the
`error` argument is truthy (`if error:`). -/
def publish_progress_payload (progress : Int) (status message : String)
    (error : Option String) : EventPayload :=
  { progress := some progress, status := some status, message := some message,
    error := match error with
             | some e => if e = "" then none else some e
             | none => none }

/-- Payload built by `MQTTProgressManager.publish_status`: carries `status`
and `message` but no `progress` key; the `error` key is added only when the
`error` argument is truthy. -/
def publish_status_payload (status message : String) (error : Option String) :
    EventPayload :=
  { progress := none, status := some status, message := some message,
    error := match error with
             | some e => if e = "" then none else some e
             | none => none }

/-- A durable RQ job record as the `app.py` handlers read it: its id, the
`user_id` stored in `meta`, the lifecycle status reported by
`job.get_status()`, the worker's returned dict (`job.result`, present once
the job has run) and `job.ended_at` rendered as an ISO string. -/
structure RqJob where
  id : String
  metaUserId : Option String
  rqStatus : String
  result : Option WorkerReturn
  endedAt : Option String

/-- The state the front end consults: the three queue registries (in scan
order: finished, started, queued — holding the jobs that `Job.fetch` can
retrieve) and the MQTT manager's in-memory progress map. -/
structure Store where
  finishedReg : List RqJob
  startedReg : List RqJob
  queuedReg : List RqJob
  progressData : String → Option ProgressRecord
  mqttConnected : Bool

/-- The `_find_job_for_user` linear scan in `app.py`: first job across the
finished, started and queued registries whose meta `user_id` matches. -/
def find_job_for_user (st : Store) (uid : String) : Option RqJob :=
  (st.finishedReg ++ st.startedReg ++ st.queuedReg).find?
    fun j => decide (j.metaUserId = some uid)

/-- Body of a successful `/status/{user_id}` response (the fields marshalled
by `status_response`). -/
structure StatusBody where
  userId : String
  jobId : Option String
  status : String
  progress : Int
  message : String
  error : Option String
  updatedAt : Option String
  dataSource : String

/-- Response of `JobStatus.get`. -/
inductive StatusResponse where
  | ok (body : StatusBody)
  | notFound

/-- Translation of `JobStatus.get` (`app.py`): prefer the MQTT record,
fall back to the registry scan deriving coarse progress from the job's
lifecycle status, and 404 when neither source knows the owner. -/
def job_status_get (st : Store) (uid : String) (now : String) : StatusResponse :=
  match st.progressData uid with
  | some rec =>
      .ok { userId := uid
            jobId := (find_job_for_user st uid).map (·.id)
            status := rec.status
            progress := rec.progress
            message := rec.message
            error := rec.error
            updatedAt := rec.updatedAt
            dataSource := "mqtt" }
  | none =>
      match find_job_for_user st uid with
      | some j =>
          .ok { userId := uid
                jobId := some j.id
                status := j.rqStatus
                progress := if j.rqStatus = "started" then 50
                  else if j.rqStatus = "finished" then 100 else 0
                message := "Job " ++ j.rqStatus ++ " (from Redis queue)"
                error := none
                updatedAt := some (j.endedAt.getD now)
                dataSource := "redis" }
      | none => .notFound

/-- A download-link entry produced by `_prepare_download_files`. -/
structure DownloadLink where
  ftype : String
  filename : List Char
  downloadUrl : String
  localPath : String
deriving Repr, DecidableEq

/-- Base URL used for generated download links (`API_BASE_URL` fallback in
`_prepare_download_files`). -/
def apiBaseUrl : String := "http://0.0.0.0:5000"

/-- Translation of `_prepare_download_files` (`app.py`): copy each file that
still exists at its source path into the public output directory and build
its download link. -/
def _prepare_download_files (fsExists : String → Bool) (files : List FileInfo)
    (uid : String) : List DownloadLink :=
  files.filterMap fun f =>
    if fsExists (f.dir ++ "/" ++ String.mk f.filename) then
      some { ftype := f.ftype
             filename := f.filename
             downloadUrl := apiBaseUrl ++ "/freecad/download/" ++ uid ++ "/"
               ++ String.mk f.filename
             localPath := "outputs/code/cad_outputs_generated/" ++ String.mk f.filename }
    else none

/-- Response of `JobResult.get`: the plain result body, the auto-download
body with links, the 202 not-ready body, or 404. -/
inductive ResultResponse where
  | okFiles (userId : String) (jobId : Option String) (status : String)
      (files : List FileInfo) (completedAt : String)
  | okLinks (userId : String) (jobId : Option String) (status : String)
      (message : String) (links : List DownloadLink) (outputDir : String)
      (completedAt : String)
  | pending (userId : String) (jobId : String) (status : String) (message : String)
  | notFound

/-- The `_return_result` helper of `JobResult.get`: unconditionally reports
status `"success"`, with download links when `auto_download` is set and the
file list is non-empty. -/
def _return_result (autoDownload : Bool) (fsExists : String → Bool) (uid : String)
    (j : RqJob) (files : List FileInfo) (now : String) : ResultResponse :=
  if autoDownload && !files.isEmpty then
    .okLinks uid (some j.id) "success"
      "Files generated and saved to outputs/code/cad_outputs_generated/"
      (_prepare_download_files fsExists files uid)
      "outputs/code/cad_outputs_generated" (j.endedAt.getD now)
  else
    .okFiles uid (some j.id) "success" files (j.endedAt.getD now)

/-- Scan of one registry inside `JobResult.get`: on the first job whose meta
`user_id` matches, answer 202 if its status is not `finished`, otherwise
answer with `_return_result` on `job.result.get("files", [])`. -/
def resultScanReg (autoDownload : Bool) (fsExists : String → Bool) (uid : String)
    (reg : List RqJob) (now : String) : Option ResultResponse :=
  match reg.find? (fun j => decide (j.metaUserId = some uid)) with
  | some j =>
      if j.rqStatus ≠ "finished" then
        some (.pending uid j.id j.rqStatus "Result not ready yet. Job is still running.")
      else
        some (_return_result autoDownload fsExists uid j
          ((j.result.map (fun r => r.files.getD [])).getD []) now)
  | none => none

/-- Translation of `JobResult.get` (`app.py`): scan the finished, started
and queued registries in order; 404 when no job for the owner is found. -/
def job_result_get (st : Store) (uid : String) (autoDownload : Bool)
    (fsExists : String → Bool) (now : String) : ResultResponse :=
  match resultScanReg autoDownload fsExists uid st.finishedReg now with
  | some r => r
  | none =>
    match resultScanReg autoDownload fsExists uid st.startedReg now with
    | some r => r
    | none =>
      match resultScanReg autoDownload fsExists uid st.queuedReg now with
      | some r => r
      | none => .notFound

/-- An `api.abort(code, message)` call: it raises a werkzeug
`HTTPException` carrying the HTTP code (the message is attached as response
data). -/
structure Aborted where
  code : Nat
  message : String
deriving Repr, DecidableEq

/-- Filesystem view consulted by `DownloadFile.get`: membership of the
filename in the default public output directory, the first directory under
`/app/outputs` whose walk contains the filename, and membership in the
storage directory. -/
structure DownloadFs where
  inDefaultOutputDir : String → Bool
  outputsBaseExists : Bool
  outputsWalkFind : String → Option String
  inStorageDir : String → Bool

/-- Default public output directory checked first by `DownloadFile.get`. -/
def defaultOutputDir : String := "/app/outputs/code/cad_outputs_generated"

/-- Body of the `try:` block of `DownloadFile.get` (`app.py`): resolve the
file across the three search locations, abort 404 when absent everywhere,
abort 403 when the filename does not contain the user id as a substring,
and otherwise stream the file (`.ok` carries the resolved path). -/
def download_file_try (fs : DownloadFs) (uid filename : String) :
    Except Aborted String :=
  let found : Option String :=
    if fs.inDefaultOutputDir filename then some (defaultOutputDir ++ "/" ++ filename)
    else
      match (if fs.outputsBaseExists then fs.outputsWalkFind filename else none) with
      | some root => some (root ++ "/" ++ filename)
      | none =>
          if fs.inStorageDir filename then some (STORAGE_PATH ++ "/" ++ filename)
          else none
  match found with
  | none => .error { code := 404, message := "File not found: " ++ filename }
  | some p =>
      if containsSub uid.toList filename.toList then .ok p
      else .error { code := 403,
                    message := "Access denied: File does not belong to user " ++ uid }

/-- HTTP outcome of `DownloadFile.get`: a streamed file or an error
response with its status code and the abort that produced it. -/
inductive HttpOutcome where
  | fileStream (path : String)
  | errorResp (code : Nat) (inner : Aborted)
deriving Repr, DecidableEq

/-- Translation of `DownloadFile.get` (`app.py`), including its exception
semantics: the inner `api.abort(404/403)` calls raise `HTTPException`,
which is an `Exception`, so the handler's own catch-all
`except Exception as e: api.abort(500, f"Download failed: {e}")` intercepts
them and the client receives a 500 response wrapping the original abort. -/
def download_file_get (fs : DownloadFs) (uid filename : String) : HttpOutcome :=
  match download_file_try fs uid filename with
  | .ok p => .fileStream p
  | .error a => .errorResp 500 a

/-- Worker environment whose external CAD process exits with code 1. -/
def envExitOne : WorkerEnv :=
  { raised := none, proc := .completed 1 "" "", userDirFiles := [],
    cadOutDirExists := false, cadOutFiles := [],
    pdf := fun _ => .importError, json := fun _ => .importError }

/-- Worker environment of a fully successful run producing `box.step`. -/
def envOkW : WorkerEnv :=
  { raised := none, proc := .completed 0 "ok" "",
    userDirFiles := ["box.step".toList], cadOutDirExists := false, cadOutFiles := [],
    pdf := fun _ => .result true true "ok", json := fun _ => .completed 0 "" "" true }

/-- Same run, but the JSON converter subprocess exits 1 while the PDF
conversion for the same artifact succeeds. -/
def envJsonFailW : WorkerEnv :=
  { envOkW with json := fun _ => .completed 1 "" "" false }

/-- A finished queue job for owner `u1`. -/
def jobFinishedW : RqJob :=
  { id := "job-1", metaUserId := some "u1", rqStatus := "finished",
    result := some { status := "success", error := none, files := some [], errorHint := none },
    endedAt := some "2026-01-01T00:00:00+00:00" }

/-- Store with no Progress-Channel record and one finished job record. -/
def storeFallbackW : Store :=
  { finishedReg := [jobFinishedW], startedReg := [], queuedReg := [],
    progressData := fun _ => none, mqttConnected := false }

/-- The dict the worker returns when `freecadcmd` exits with code 1. -/
def failedWorkerReturn : WorkerReturn :=
  { status := "failed", error := some "FreeCAD command failed with exit code 1",
    files := none,
    errorHint := some "See stdout_tail/stderr_tail for details." }

/-- The finished-registry record of that failed job: the worker function
returned its failure dict normally, so the queue marks the job finished. -/
def jobFailedW : RqJob :=
  { id := "job-2", metaUserId := some "u2", rqStatus := "finished",
    result := some failedWorkerReturn, endedAt := some "t1" }

/-- Progress-Channel record left by the worker's failure publishes. -/
def mqttFailedRecord : ProgressRecord :=
  { status := "failed", progress := 0,
    message := "FreeCAD command failed with exit code 1",
    updatedAt := some "t1", error := some "FreeCAD command failed with exit code 1" }

/-- Store holding that failed job and its Progress-Channel record. -/
def storeFailedW : Store :=
  { finishedReg := [jobFailedW], startedReg := [], queuedReg := [],
    progressData := fun u => if u = "u2" then some mqttFailedRecord else none,
    mqttConnected := true }

/-- Download filesystem with exactly one stored file, `box_u2.step`. -/
def fsStorageBoxU2 : DownloadFs :=
  { inDefaultOutputDir := fun _ => false, outputsBaseExists := false,
    outputsWalkFind := fun _ => none,
    inStorageDir := fun f => f == "box_u2.step" }

/-- A Progress-Channel record still carrying an earlier job's error. -/
def staleErrRecord : ProgressRecord :=
  { status := "failed", progress := 0, message := "old failure", updatedAt := some "t0",
    error := some "previous job failed" }

/-- The boolean substring test agrees with the mathematical infix relation. -/
theorem containsSub_iff (n : List Char) :
    ∀ h : List Char, containsSub n h = true ↔ n <:+: h := by
  intro h
  induction h with
  | nil =>
    simp only [containsSub, List.isEmpty_iff]
    constructor
    · rintro rfl; exact ⟨[], [], rfl⟩
    · rintro ⟨s, t, hst⟩
      rcases List.append_eq_nil.mp hst with ⟨hs, ht⟩
      rcases List.append_eq_nil.mp hs with ⟨-, hn⟩
      exact hn
  | cons a t ih =>
    simp only [containsSub, Bool.or_eq_true, ih]
    constructor
    · rintro (hp | hi)
      · rcases List.isPrefixOf_iff_prefix.mp hp with ⟨r, hr⟩
        exact ⟨[], r, by simpa using hr⟩
      · rcases hi with ⟨s, r, hr⟩
        exact ⟨a :: s, r, by simp [hr]⟩
    · rintro ⟨s, r, hr⟩
      match s with
      | [] =>
        left
        exact List.isPrefixOf_iff_prefix.mpr ⟨r, by simpa using hr⟩
      | b :: s' =>
        right
        simp only [List.cons_append, List.cons.injEq] at hr
        exact ⟨s', r, hr.2⟩


theorem uid_infix_primary (file uid : List Char) :
    uid <:+: primaryNewFilename file uid :=
  ⟨(splitextL file).1 ++ ['_'], (splitextL file).2, by
    simp [primaryNewFilename]⟩

theorem uid_infix_conv_base (stepPath uid ext : List Char) :
    uid <:+: convBaseFilename stepPath uid ++ ext :=
  ⟨pathStemL stepPath ++ ['_'], ext, by simp [convBaseFilename]⟩

theorem convLoop_error_eq (p : Nat → PdfEnv) (j : Nat → JsonEnv) (uid : List Char) :
    ∀ (l : List FileInfo) (i : Nat) (pdfs jsons : List FileInfo) (e : String),
      firstJsonError j uid i l = some e →
      convLoop p j uid i l (pdfs, jsons) = .error e := by
  intro l
  induction l with
  | nil => intro i pdfs jsons e h; simp [firstJsonError] at h
  | cons f rest ih =>
    intro i pdfs jsons e h
    by_cases hstep : f.ftype = "step"
    · by_cases hjs : (generate_json_from_step (j i) f.filename uid).status = "success"
      · simp only [firstJsonError, hstep, if_true, hjs, if_true] at h
        simp only [convLoop, hstep, if_true, hjs, if_true]
        exact ih _ _ _ _ h
      · simp only [firstJsonError, hstep, if_true, if_neg hjs] at h
        simp only [convLoop, hstep, if_true, if_neg hjs]
        exact congrArg Except.error (Option.some.inj h)
    · simp only [firstJsonError, if_neg hstep] at h
      simp only [convLoop, if_neg hstep]
      exact ih _ _ _ _ h

theorem convLoop_ok_eq (p : Nat → PdfEnv) (j : Nat → JsonEnv) (uid : List Char) :
    ∀ (l : List FileInfo) (i : Nat) (pdfs jsons : List FileInfo),
      firstJsonError j uid i l = none →
      ∃ pr js, convLoop p j uid i l (pdfs, jsons) = .ok (pr, js) := by
  intro l
  induction l with
  | nil => intro i pdfs jsons _; exact ⟨pdfs, jsons, rfl⟩
  | cons f rest ih =>
    intro i pdfs jsons h
    by_cases hstep : f.ftype = "step"
    · by_cases hjs : (generate_json_from_step (j i) f.filename uid).status = "success"
      · simp only [firstJsonError, hstep, if_true, hjs, if_true] at h
        simp only [convLoop, hstep, if_true, hjs, if_true]
        exact ih _ _ _ h
      · simp only [firstJsonError, hstep, if_true, if_neg hjs] at h
        exact (Option.some_ne_none _ h).elim
    · simp only [firstJsonError, if_neg hstep] at h
      simp only [convLoop, if_neg hstep]
      exact ih _ _ _ h

theorem pdf_success_filename (e : PdfEnv) (n uid : List Char)
    (h : (generate_pdf_from_step e n uid).status = "success") :
    (generate_pdf_from_step e n uid).filename = some (pdfFilename n uid) := by
  cases e with
  | importError => simp [generate_pdf_from_step] at h
  | raised m => simp [generate_pdf_from_step] at h
  | result ok pathOk msg =>
    by_cases hc : (ok && pathOk) = true
    · simp [generate_pdf_from_step, hc]
    · simp [generate_pdf_from_step, hc] at h

theorem json_success_filename (e : JsonEnv) (n uid : List Char)
    (h : (generate_json_from_step e n uid).status = "success") :
    (generate_json_from_step e n uid).filename = some (jsonFilename n uid) := by
  cases e with
  | importError => simp [generate_json_from_step] at h
  | timeout => simp [generate_json_from_step] at h
  | raised m => simp [generate_json_from_step] at h
  | completed rc souts serrs created =>
    by_cases h0 : rc = 0
    · cases created with
      | true => simp [generate_json_from_step, h0]
      | false => simp [generate_json_from_step, h0] at h
    · simp [generate_json_from_step, h0] at h

theorem convLoop_ok_mem (p : Nat → PdfEnv) (j : Nat → JsonEnv) (uid : List Char) :
    ∀ (l : List FileInfo) (i : Nat) (pdfs jsons pr js : List FileInfo),
      convLoop p j uid i l (pdfs, jsons) = .ok (pr, js) →
      (∀ f ∈ pr, f ∈ pdfs ∨ ∃ name, f.filename = pdfFilename name uid) ∧
      (∀ f ∈ js, f ∈ jsons ∨ ∃ name, f.filename = jsonFilename name uid) := by
  intro l
  induction l with
  | nil =>
    intro i pdfs jsons pr js h
    simp only [convLoop, Except.ok.injEq, Prod.mk.injEq] at h
    exact ⟨fun f hf => .inl (h.1 ▸ hf), fun f hf => .inl (h.2 ▸ hf)⟩
  | cons f rest ih =>
    intro i pdfs jsons pr js h
    by_cases hstep : f.ftype = "step"
    · by_cases hjs : (generate_json_from_step (j i) f.filename uid).status = "success"
      · simp only [convLoop, hstep, if_true, hjs, if_true] at h
        have hmem := ih (i + 1) _ _ pr js h
        refine ⟨fun g hg => ?_, fun g hg => ?_⟩
        · rcases hmem.1 g hg with hin | hform
          · by_cases hps : (generate_pdf_from_step (p i) f.filename uid).status = "success"
            · simp only [hps, if_true, List.mem_append, List.mem_singleton] at hin
              rcases hin with hin | rfl
              · exact .inl hin
              · exact .inr ⟨f.filename, by
                  simp [pdf_success_filename _ _ _ hps]⟩
            · simp only [if_neg hps] at hin
              exact .inl hin
          · exact .inr hform
        · rcases hmem.2 g hg with hin | hform
          · rcases List.mem_append.mp hin with hin | hin
            · exact .inl hin
            · rcases List.mem_singleton.mp hin with rfl
              exact .inr ⟨f.filename, by
                simp [json_success_filename _ _ _ hjs]⟩
          · exact .inr hform
      · simp only [convLoop, hstep, if_true, if_neg hjs] at h
        exact absurd h (by simp)
    · simp only [convLoop, if_neg hstep] at h
      exact ih (i + 1) _ _ pr js h

theorem execute_raised (env : WorkerEnv) (uid : List Char) (k : RaisedKind)
    (hr : env.raised = some k) :
    execute_freecad_script env uid =
      { ret := { status := "failed",
                 error := some (match k with
                   | .timeoutExpired => "FreeCAD command timed out after 5 minutes"
                   | .exc m => "Unexpected error: " ++ m),
                 files := none, errorHint := none },
        userDirRemoved := false } := by
  rcases env with ⟨raised, proc, udf, cde, cof, p, j⟩
  cases hr
  cases k <;> rfl

theorem execute_proc_timeout (env : WorkerEnv) (uid : List Char)
    (hr : env.raised = none) (hp : env.proc = .timeout) :
    execute_freecad_script env uid =
      { ret := { status := "failed", error := some "FreeCAD command timed out after 1 hour",
                 files := none, errorHint := none },
        userDirRemoved := false } := by
  rcases env with ⟨raised, proc, udf, cde, cof, p, j⟩
  cases hr; cases hp; rfl

theorem execute_nonzero (env : WorkerEnv) (uid : List Char) (rc : Int) (out err : String)
    (hr : env.raised = none) (hp : env.proc = .completed rc out err) (h0 : rc ≠ 0) :
    execute_freecad_script env uid =
      { ret := { status := "failed",
                 error := some ("FreeCAD command failed with exit code " ++ toString rc),
                 files := none,
                 errorHint := some (_extract_error_hint (tailJoin out) (tailJoin err)) },
        userDirRemoved := false } := by
  rcases env with ⟨raised, proc, udf, cde, cof, p, j⟩
  cases hr; cases hp
  simp only [execute_freecad_script, if_neg h0]

theorem execute_zero_empty (env : WorkerEnv) (uid : List Char) (out err : String)
    (hr : env.raised = none) (hp : env.proc = .completed 0 out err)
    (hg : (generatedFiles env uid).isEmpty = true) :
    execute_freecad_script env uid =
      { ret := { status := "failed", error := some "No STEP or OBJ files were generated",
                 files := none,
                 errorHint := some (_extract_error_hint (tailJoin out) (tailJoin err)) },
        userDirRemoved := true } := by
  rcases env with ⟨raised, proc, udf, cde, cof, p, j⟩
  cases hr; cases hp
  simp only [execute_freecad_script, if_pos rfl] at hg ⊢
  simp only [hg, if_true]

theorem execute_zero_convOk (env : WorkerEnv) (uid : List Char) (out err : String)
    (pr js : List FileInfo)
    (hr : env.raised = none) (hp : env.proc = .completed 0 out err)
    (hg : (generatedFiles env uid).isEmpty = false)
    (hcv : convLoop env.pdf env.json uid 0 (generatedFiles env uid) ([], []) = .ok (pr, js)) :
    execute_freecad_script env uid =
      { ret := { status := "success", error := none,
                 files := some (generatedFiles env uid ++ pr ++ js), errorHint := none },
        userDirRemoved := true } := by
  rcases env with ⟨raised, proc, udf, cde, cof, p, j⟩
  cases hr; cases hp
  simp only [execute_freecad_script, if_pos rfl] at hg hcv ⊢
  simp only [hg, Bool.false_eq_true, if_false, hcv]
  simp

theorem execute_zero_convErr (env : WorkerEnv) (uid : List Char) (out err : String)
    (e : String)
    (hr : env.raised = none) (hp : env.proc = .completed 0 out err)
    (hg : (generatedFiles env uid).isEmpty = false)
    (hcv : convLoop env.pdf env.json uid 0 (generatedFiles env uid) ([], []) = .error e) :
    execute_freecad_script env uid =
      { ret := { status := "failed", error := some e, files := none, errorHint := none },
        userDirRemoved := true } := by
  rcases env with ⟨raised, proc, udf, cde, cof, p, j⟩
  cases hr; cases hp
  simp only [execute_freecad_script, if_pos rfl] at hg hcv ⊢
  simp only [hg, Bool.false_eq_true, if_false, hcv]
  simp

/-- Claim C9: `execute_freecad_script` is a total function of its environment: every invocation returns either status `success` with a files list and no error, or status `failed` with an error string — no exception reaches the caller. -/
theorem c9_execute_always_returns_status_dict :
    ∀ (env : WorkerEnv) (uid : List Char),
      ((execute_freecad_script env uid).ret.status = "success" ∧
        (∃ fs, (execute_freecad_script env uid).ret.files = some fs) ∧
        (execute_freecad_script env uid).ret.error = none) ∨
      ((execute_freecad_script env uid).ret.status = "failed" ∧
        ∃ e, (execute_freecad_script env uid).ret.error = some e) := by
  intro env uid
  cases hr : env.raised with
  | some k =>
    rw [execute_raised env uid k hr]
    right; exact ⟨rfl, _, rfl⟩
  | none =>
    cases hp : env.proc with
    | timeout =>
      rw [execute_proc_timeout env uid hr hp]
      right; exact ⟨rfl, _, rfl⟩
    | completed rc out err =>
      by_cases h0 : rc = 0
      · subst h0
        cases hg : (generatedFiles env uid).isEmpty with
        | true =>
          rw [execute_zero_empty env uid out err hr hp hg]
          right; exact ⟨rfl, _, rfl⟩
        | false =>
          cases hcv : convLoop env.pdf env.json uid 0 (generatedFiles env uid) ([], []) with
          | ok prjs =>
            rcases prjs with ⟨pr, js⟩
            rw [execute_zero_convOk env uid out err pr js hr hp hg hcv]
            left; exact ⟨rfl, ⟨_, rfl⟩, rfl⟩
          | error e =>
            rw [execute_zero_convErr env uid out err e hr hp hg hcv]
            right; exact ⟨rfl, _, rfl⟩
      · rw [execute_nonzero env uid rc out err hr hp h0]
        right; exact ⟨rfl, _, rfl⟩

/-- Claim C3 (amended): the per-owner working directory is removed exactly on the zero-exit paths (success, no artifacts, derived-conversion failure); the timeout, non-zero-exit and unexpected-exception paths return before the `rmtree` call and leak the directory. -/
theorem c3_workdir_cleanup_iff_zero_exit :
    ∀ (env : WorkerEnv) (uid : List Char),
      (execute_freecad_script env uid).userDirRemoved = true ↔
        (env.raised = none ∧ ∃ out err, env.proc = .completed 0 out err) := by
  intro env uid
  constructor
  · intro h
    cases hr : env.raised with
    | some k =>
      rw [execute_raised env uid k hr] at h
      exact absurd h (by simp)
    | none =>
      refine ⟨rfl, ?_⟩
      cases hp : env.proc with
      | timeout =>
        rw [execute_proc_timeout env uid hr hp] at h
        exact absurd h (by simp)
      | completed rc out err =>
        by_cases h0 : rc = 0
        · subst h0; exact ⟨out, err, rfl⟩
        · rw [execute_nonzero env uid rc out err hr hp h0] at h
          exact absurd h (by simp)
  · rintro ⟨hr, out, err, hp⟩
    cases hg : (generatedFiles env uid).isEmpty with
    | true => rw [execute_zero_empty env uid out err hr hp hg]
    | false =>
      cases hcv : convLoop env.pdf env.json uid 0 (generatedFiles env uid) ([], []) with
      | ok prjs =>
        rcases prjs with ⟨pr, js⟩
        rw [execute_zero_convOk env uid out err pr js hr hp hg hcv]
      | error e =>
        rw [execute_zero_convErr env uid out err e hr hp hg hcv]

/-- Claim C3 counterexample: a non-zero-exit invocation terminates with status `failed`, yet the working directory is not removed — refuting cleanup on every terminal path. -/
theorem c3_no_cleanup_on_nonzero_exit :
    (execute_freecad_script envExitOne "u1".toList).ret.status = "failed" ∧
    (execute_freecad_script envExitOne "u1".toList).userDirRemoved = false :=
  ⟨rfl, rfl⟩

/-- Claim C2: once primary artifacts are promoted from a zero-exit run, a JSON-conversion failure for any step artifact makes the whole invocation return status `failed` carrying the first failing conversion's error; with no JSON failure the invocation succeeds; and the PDF converter's behaviour never changes the returned status or error. -/
theorem c2_json_failure_fatal_pdf_failure_not :
    (∀ (env : WorkerEnv) (uid : List Char) (out err e : String),
        env.raised = none → env.proc = .completed 0 out err →
        firstJsonError env.json uid 0 (generatedFiles env uid) = some e →
        (execute_freecad_script env uid).ret.status = "failed" ∧
        (execute_freecad_script env uid).ret.error = some e) ∧
    (∀ (env : WorkerEnv) (uid : List Char) (out err : String),
        env.raised = none → env.proc = .completed 0 out err →
        (generatedFiles env uid).isEmpty = false →
        firstJsonError env.json uid 0 (generatedFiles env uid) = none →
        (execute_freecad_script env uid).ret.status = "success") ∧
    (∀ (env : WorkerEnv) (uid : List Char) (pdfB : Nat → PdfEnv),
        (execute_freecad_script { env with pdf := pdfB } uid).ret.status =
          (execute_freecad_script env uid).ret.status ∧
        (execute_freecad_script { env with pdf := pdfB } uid).ret.error =
          (execute_freecad_script env uid).ret.error) := by
  refine ⟨?_, ?_, ?_⟩
  · intro env uid out err e hr hp hfirst
    have hg : (generatedFiles env uid).isEmpty = false := by
      cases hgen : generatedFiles env uid with
      | nil => rw [hgen] at hfirst; simp [firstJsonError] at hfirst
      | cons a l => simp [hgen]
    have hcv := convLoop_error_eq env.pdf env.json uid (generatedFiles env uid) 0 [] [] e hfirst
    rw [execute_zero_convErr env uid out err e hr hp hg hcv]
    exact ⟨rfl, rfl⟩
  · intro env uid out err hr hp hg hfirst
    rcases convLoop_ok_eq env.pdf env.json uid (generatedFiles env uid) 0 [] [] hfirst
      with ⟨pr, js, hcv⟩
    rw [execute_zero_convOk env uid out err pr js hr hp hg hcv]
  · intro env uid pdfB
    rcases env with ⟨raised, proc, udf, cde, cof, p, j⟩
    cases raised with
    | some k => cases k <;> exact ⟨rfl, rfl⟩
    | none =>
      cases proc with
      | timeout => exact ⟨rfl, rfl⟩
      | completed rc out err =>
        by_cases h0 : rc = 0
        · subst h0
          cases hg : (generatedFiles
              (WorkerEnv.mk none (.completed 0 out err) udf cde cof p j) uid).isEmpty with
          | true =>
            rw [execute_zero_empty _ uid out err rfl rfl hg,
              execute_zero_empty (WorkerEnv.mk none (.completed 0 out err) udf cde cof pdfB j)
                uid out err rfl rfl hg]
            exact ⟨rfl, rfl⟩
          | false =>
            cases hfe : firstJsonError j uid 0
                (generatedFiles (WorkerEnv.mk none (.completed 0 out err) udf cde cof p j) uid) with
            | some e =>
              rw [execute_zero_convErr _ uid out err e rfl rfl hg
                    (convLoop_error_eq p j uid _ 0 [] [] e hfe),
                  execute_zero_convErr
                    (WorkerEnv.mk none (.completed 0 out err) udf cde cof pdfB j) uid out err e
                    rfl rfl hg (convLoop_error_eq pdfB j uid _ 0 [] [] e hfe)]
              exact ⟨rfl, rfl⟩
            | none =>
              rcases convLoop_ok_eq p j uid
                  (generatedFiles (WorkerEnv.mk none (.completed 0 out err) udf cde cof p j) uid)
                  0 [] [] hfe with ⟨pr, js, hcv⟩
              rcases convLoop_ok_eq pdfB j uid
                  (generatedFiles (WorkerEnv.mk none (.completed 0 out err) udf cde cof p j) uid)
                  0 [] [] hfe with ⟨prB, jsB, hcvB⟩
              rw [execute_zero_convOk _ uid out err pr js rfl rfl hg hcv,
                  execute_zero_convOk
                    (WorkerEnv.mk none (.completed 0 out err) udf cde cof pdfB j) uid out err
                    prB jsB rfl rfl hg hcvB]
              exact ⟨rfl, rfl⟩
        · rw [execute_nonzero (WorkerEnv.mk none (.completed rc out err) udf cde cof pdfB j)
                uid rc out err rfl rfl h0,
              execute_nonzero (WorkerEnv.mk none (.completed rc out err) udf cde cof p j)
                uid rc out err rfl rfl h0]
          exact ⟨rfl, rfl⟩

theorem extract_error_hint_ne (s t : String) : _extract_error_hint s t ≠ "" := by
  simp only [_extract_error_hint]
  repeat' split
  all_goals decide

/-- Claim C8: the hint classifier returns a non-empty string on every input; on a non-zero exit code the invocation returns status `failed` with an error message containing the exit code's decimal representation and a non-empty `error_hint`; and the captured output tails never change the returned status or error — the hint is advisory only. -/
theorem c8_nonzero_exit_failure_report :
    (∀ s t : String, _extract_error_hint s t ≠ "") ∧
    (∀ (env : WorkerEnv) (uid : List Char) (rc : Int) (out err : String),
        env.raised = none → env.proc = .completed rc out err → rc ≠ 0 →
        (execute_freecad_script env uid).ret.status = "failed" ∧
        (∃ m, (execute_freecad_script env uid).ret.error = some m ∧
          (toString rc).toList <:+: m.toList) ∧
        (∃ hint, (execute_freecad_script env uid).ret.errorHint = some hint ∧ hint ≠ "")) ∧
    (∀ (env envB : WorkerEnv) (uid : List Char) (rc : Int) (out err outB errB : String),
        env.raised = none → env.proc = .completed rc out err →
        envB.raised = none → envB.proc = .completed rc outB errB → rc ≠ 0 →
        (execute_freecad_script env uid).ret.status =
          (execute_freecad_script envB uid).ret.status ∧
        (execute_freecad_script env uid).ret.error =
          (execute_freecad_script envB uid).ret.error) := by
  refine ⟨extract_error_hint_ne, ?_, ?_⟩
  · intro env uid rc out err hr hp h0
    rw [execute_nonzero env uid rc out err hr hp h0]
    refine ⟨rfl, ⟨_, rfl, ?_⟩, ⟨_, rfl, extract_error_hint_ne _ _⟩⟩
    exact ⟨"FreeCAD command failed with exit code ".toList, [], by
      simp [String.toList, String.data_append]⟩
  · intro env envB uid rc out err outB errB hr hp hrB hpB h0
    rw [execute_nonzero env uid rc out err hr hp h0,
        execute_nonzero envB uid rc outB errB hrB hpB h0]
    exact ⟨rfl, rfl⟩

theorem heartbeatValue_bounds : ∀ n, 25 ≤ heartbeatValue n ∧ heartbeatValue n ≤ 35 := by
  intro n
  induction n with
  | zero => simp [heartbeatValue]
  | succ k ih => simp only [heartbeatValue]; omega

/-- Claim C7: every heartbeat publish carries a progress value within 25..35 and status `running`, consecutive publishes are non-decreasing and follow `min(previous + 2, 35)`, the wait interval is the constant 5, and a run stopped at tick `n` has published exactly `n` events. -/
theorem c7_heartbeat_band_monotone_running :
    (∀ t, 25 ≤ (heartbeatPublished t).progress ∧ (heartbeatPublished t).progress ≤ 35) ∧
    (∀ t, (heartbeatPublished t).progress ≤ (heartbeatPublished (t + 1)).progress) ∧
    (∀ t, (heartbeatPublished (t + 1)).progress =
      min ((heartbeatPublished t).progress + 2) 35) ∧
    (∀ t, (heartbeatPublished t).status = "running") ∧
    heartbeatInterval = 5 ∧
    (∀ n, (heartbeatRun n).length = n) := by
  refine ⟨fun t => heartbeatValue_bounds (t + 1), fun t => ?_, fun t => rfl, fun t => rfl,
    rfl, fun n => by simp [heartbeatRun]⟩
  have hb := heartbeatValue_bounds (t + 1)
  show heartbeatValue (t + 1) ≤ heartbeatValue (t + 2)
  simp only [heartbeatValue]
  omega

theorem mem_promoteFiles (files : List (List Char)) (uid : List Char) (f : FileInfo)
    (h : f ∈ promoteFiles files uid) :
    ∃ orig, f.filename = primaryNewFilename orig uid := by
  rcases List.mem_map.mp h with ⟨orig, _, rfl⟩
  exact ⟨orig, rfl⟩

theorem mem_generatedFiles (env : WorkerEnv) (uid : List Char) (f : FileInfo)
    (h : f ∈ generatedFiles env uid) :
    ∃ orig, f.filename = primaryNewFilename orig uid := by
  simp only [generatedFiles] at h
  by_cases hg0 : (promoteFiles env.userDirFiles uid).isEmpty = true
  · rw [if_pos hg0] at h
    by_cases hc : env.cadOutDirExists = true
    · rw [if_pos hc] at h
      exact mem_promoteFiles _ _ _ h
    · rw [if_neg hc] at h
      exact absurd h (List.not_mem_nil f)
  · rw [if_neg hg0] at h
    exact mem_promoteFiles _ _ _ h

/-- Claim C6: every artifact filename is the original stem followed by an underscore, the owner id and the extension — for the primary promotion, the derived PDF and the derived JSON alike — and consequently every file of a returned artifact list contains the owner id as a contiguous substring. -/
theorem c6_artifact_filenames_embed_owner_id :
    (∀ file uid : List Char,
        primaryNewFilename file uid =
          (splitextL file).1 ++ '_' :: uid ++ (splitextL file).2 ∧
        uid <:+: primaryNewFilename file uid) ∧
    (∀ stepPath uid : List Char,
        pdfFilename stepPath uid = pathStemL stepPath ++ '_' :: uid ++ ".pdf".toList ∧
        uid <:+: pdfFilename stepPath uid) ∧
    (∀ stepPath uid : List Char,
        jsonFilename stepPath uid = pathStemL stepPath ++ '_' :: uid ++ ".json".toList ∧
        uid <:+: jsonFilename stepPath uid) ∧
    (∀ (env : WorkerEnv) (uid : List Char) (fs : List FileInfo),
        (execute_freecad_script env uid).ret.files = some fs →
        ∀ f ∈ fs, uid <:+: f.filename) := by
  refine ⟨fun file uid => ⟨rfl, uid_infix_primary file uid⟩,
    fun sp uid => ⟨by simp [pdfFilename, convBaseFilename], uid_infix_conv_base sp uid _⟩,
    fun sp uid => ⟨by simp [jsonFilename, convBaseFilename], uid_infix_conv_base sp uid _⟩,
    ?_⟩
  intro env uid fs hf f hmem
  cases hr : env.raised with
  | some k =>
    rw [execute_raised env uid k hr] at hf
    exact absurd hf (by simp)
  | none =>
    cases hp : env.proc with
    | timeout =>
      rw [execute_proc_timeout env uid hr hp] at hf
      exact absurd hf (by simp)
    | completed rc out err =>
      by_cases h0 : rc = 0
      · subst h0
        cases hg : (generatedFiles env uid).isEmpty with
        | true =>
          rw [execute_zero_empty env uid out err hr hp hg] at hf
          exact absurd hf (by simp)
        | false =>
          cases hcv : convLoop env.pdf env.json uid 0 (generatedFiles env uid) ([], []) with
          | ok prjs =>
            rcases prjs with ⟨pr, js⟩
            rw [execute_zero_convOk env uid out err pr js hr hp hg hcv] at hf
            simp only [Option.some.injEq] at hf
            subst hf
            have hmm := convLoop_ok_mem env.pdf env.json uid (generatedFiles env uid)
              0 [] [] pr js hcv
            rcases List.mem_append.mp hmem with hm1 | hm2
            · rcases List.mem_append.mp hm1 with hgen | hpr
              · rcases mem_generatedFiles env uid f hgen with ⟨orig, horig⟩
                rw [horig]
                exact uid_infix_primary orig uid
              · rcases hmm.1 f hpr with hin | ⟨name, hn⟩
                · exact absurd hin (List.not_mem_nil f)
                · rw [hn]
                  exact uid_infix_conv_base name uid _
            · rcases hmm.2 f hm2 with hin | ⟨name, hn⟩
              · exact absurd hin (List.not_mem_nil f)
              · rw [hn]
                exact uid_infix_conv_base name uid _
          | error e =>
            rw [execute_zero_convErr env uid out err e hr hp hg hcv] at hf
            exact absurd hf (by simp)
      · rw [execute_nonzero env uid rc out err hr hp h0] at hf
        exact absurd hf (by simp)

/-- Claim C5: with no Progress-Channel record for the owner, `GET /status` answers from the registry scan's job record alone: that job's id and lifecycle state, with progress 50 for `started`, 100 for `finished` and 0 otherwise. -/
theorem c5_status_fallback_from_job_record :
    ∀ (st : Store) (uid now : String) (j : RqJob),
      st.progressData uid = none → find_job_for_user st uid = some j →
      job_status_get st uid now =
        .ok { userId := uid, jobId := some j.id, status := j.rqStatus,
              progress := if j.rqStatus = "started" then 50
                else if j.rqStatus = "finished" then 100 else 0,
              message := "Job " ++ j.rqStatus ++ " (from Redis queue)",
              error := none,
              updatedAt := some (j.endedAt.getD now), dataSource := "redis" } := by
  intro st uid now j hm hf
  simp only [job_status_get, hm, hf]

/-- Witness for C5 at a concrete store holding one finished job and an empty Progress Channel. -/
theorem c5_witness :
    job_status_get storeFallbackW "u1" "t0" =
      .ok { userId := "u1", jobId := some "job-1", status := "finished", progress := 100,
            message := "Job finished (from Redis queue)", error := none,
            updatedAt := some "2026-01-01T00:00:00+00:00", dataSource := "redis" } := by
  have h := c5_status_fallback_from_job_record storeFallbackW "u1" "t0" jobFinishedW rfl rfl
  exact h

/-- Claim C1 (amended): when the Progress Channel holds a record for the owner, `GET /status` returns its status and error verbatim — so the failure record written by the worker's publishes is surfaced; `GET /result`, however, finds the failed job in the finished registry (the worker returned its failure dict normally) and reports status `success` with an empty files list and no error string. -/
theorem c1_status_surfaces_failure_result_reports_success :
    (∀ (st : Store) (uid now : String) (rec : ProgressRecord),
        st.progressData uid = some rec →
        job_status_get st uid now =
          .ok { userId := uid, jobId := (find_job_for_user st uid).map (·.id),
                status := rec.status, progress := rec.progress, message := rec.message,
                error := rec.error, updatedAt := rec.updatedAt, dataSource := "mqtt" }) ∧
    (∀ (st : Store) (uid now : String) (auto : Bool) (fsE : String → Bool)
        (j : RqJob) (wr : WorkerReturn),
        st.finishedReg.find? (fun jb => decide (jb.metaUserId = some uid)) = some j →
        j.rqStatus = "finished" → j.result = some wr →
        wr.status = "failed" → wr.files = none →
        job_result_get st uid auto fsE now =
          .okFiles uid (some j.id) "success" [] (j.endedAt.getD now)) := by
  constructor
  · intro st uid now rec hm
    simp only [job_status_get, hm]
  · intro st uid now auto fsE j wr hfind hstat hres _ hfiles
    simp only [job_result_get, resultScanReg, hfind, hstat, hres, hfiles]
    simp [_return_result, hfiles]

/-- Claim C1 counterexample: a job whose worker payload is status `failed` with an error string is reported by `GET /result` as status `success` with an empty files list — the failure is not surfaced there. -/
theorem c1_result_reports_failed_job_as_success :
    jobFailedW.result = some failedWorkerReturn ∧
    failedWorkerReturn.status = "failed" ∧
    failedWorkerReturn.error = some "FreeCAD command failed with exit code 1" ∧
    job_result_get storeFailedW "u2" false (fun _ => false) "t2" =
      .okFiles "u2" (some "job-2") "success" [] "t1" :=
  ⟨rfl, rfl, rfl, rfl⟩

/-- Witness for the amended C1 theorem at a concrete store holding the failed job and its Progress-Channel record. -/
theorem c1_witness :
    job_status_get storeFailedW "u2" "t2" =
      .ok { userId := "u2", jobId := some "job-2", status := "failed", progress := 0,
            message := "FreeCAD command failed with exit code 1",
            error := some "FreeCAD command failed with exit code 1",
            updatedAt := some "t1", dataSource := "mqtt" } ∧
    job_result_get storeFailedW "u2" false (fun _ => false) "t2" =
      .okFiles "u2" (some "job-2") "success" [] "t1" := by
  constructor
  · exact c1_status_surfaces_failure_result_reports_success.1 storeFailedW "u2" "t2" mqttFailedRecord rfl
  · exact c1_status_surfaces_failure_result_reports_success.2 storeFailedW "u2" "t2" false (fun _ => false) jobFailedW
      failedWorkerReturn rfl rfl rfl rfl rfl

/-- Claim C4 (code bug): the inner `api.abort(404)` for a file missing everywhere and `api.abort(403)` for an ownership mismatch are intercepted by the handler's catch-all `except Exception` and reach the client as 500 responses, while a stored file whose name contains the user id is streamed; the authorization decision itself is exactly substring containment. -/
theorem c4_download_aborts_surface_as_500 :
    download_file_get fsStorageBoxU2 "u1" "box_u2.step" =
      .errorResp 500 ⟨403, "Access denied: File does not belong to user u1"⟩ ∧
    download_file_get fsStorageBoxU2 "u1" "missing_u1.step" =
      .errorResp 500 ⟨404, "File not found: missing_u1.step"⟩ ∧
    download_file_get fsStorageBoxU2 "u2" "box_u2.step" =
      .fileStream "/app/storage/box_u2.step" :=
  ⟨rfl, rfl, rfl⟩

/-- Claim C10: an event without an `error` key never clears the record's error, `publish_progress` and `publish_status` omit the key whenever their error argument is `None`, and after a later successful job's `finished` events the merged record shows status `finished` and progress 100 while still carrying the stale error. -/
theorem c10_stale_error_never_cleared :
    (∀ (rec : ProgressRecord) (evs : List EventPayload) (now : String),
        (∀ ev ∈ evs, ev.error = none) →
        (evs.foldl (fun r ev => applyEvent (some r) ev now) rec).error = rec.error) ∧
    (∀ (p : Int) (s m : String),
        (publish_progress_payload p s m none).error = none ∧
        (publish_status_payload s m none).error = none) ∧
    (∀ (rec : ProgressRecord) (e : String) (now m1 m2 : String),
        rec.error = some e →
        applyEvent (some (applyEvent (some rec)
            (publish_progress_payload 100 "finished" m1 none) now))
          (publish_status_payload "finished" m2 none) now =
          { status := "finished", progress := 100, message := m2,
            updatedAt := some now, error := some e }) := by
  refine ⟨?_, fun p s m => ⟨rfl, rfl⟩, ?_⟩
  · intro rec evs now
    revert rec
    induction evs with
    | nil => intro rec _; rfl
    | cons ev rest ih =>
      intro rec h
      simp only [List.foldl_cons]
      rw [ih (applyEvent (some rec) ev now) (fun x hx => h x (List.mem_cons_of_mem _ hx))]
      have h1 : ev.error = none := h ev (List.mem_cons_self _ _)
      simp [applyEvent, h1]
  · intro rec e now m1 m2 herr
    simp [applyEvent, publish_progress_payload, publish_status_payload, herr]

/-- Witness for C10 at a record carrying an earlier job's error. -/
theorem c10_witness :
    applyEvent (some (applyEvent (some staleErrRecord)
        (publish_progress_payload 100 "finished" "done" none) "t1"))
      (publish_status_payload "finished" "all good" none) "t1" =
      { status := "finished", progress := 100, message := "all good",
        updatedAt := some "t1", error := some "previous job failed" } :=
  c10_stale_error_never_cleared.2.2 staleErrRecord "previous job failed" "t1" "done" "all good" rfl

/-- Witness for C2 at a concrete environment whose JSON converter fails on the only promoted step artifact. -/
theorem c2_witness :
    (execute_freecad_script envJsonFailW "u1".toList).ret.status = "failed" ∧
    (execute_freecad_script envJsonFailW "u1".toList).ret.error =
      some "FreeCAD command failed with return code 1" :=
  c2_json_failure_fatal_pdf_failure_not.1 envJsonFailW "u1".toList "ok" ""
    "FreeCAD command failed with return code 1" rfl rfl (by decide)

/-- Witness for C6's end-to-end clause at a concrete successful run. -/
theorem c6_witness :
    "u1".toList <:+:
      (FileInfo.mk "step" STORAGE_PATH "box_u1.step".toList).filename :=
  c6_artifact_filenames_embed_owner_id.2.2.2 envOkW "u1".toList
    [⟨"step", STORAGE_PATH, "box_u1.step".toList⟩,
     ⟨"pdf", STORAGE_PATH, "box_u1_u1.pdf".toList⟩,
     ⟨"json", STORAGE_PATH, "box_u1_u1.json".toList⟩] rfl
    ⟨"step", STORAGE_PATH, "box_u1.step".toList⟩ (by simp)

/-- Witness for C8's non-zero-exit clause at a concrete environment exiting with code 1. -/
theorem c8_witness :
    (execute_freecad_script envExitOne "u1".toList).ret.status = "failed" ∧
    (∃ m, (execute_freecad_script envExitOne "u1".toList).ret.error = some m ∧
      (toString (1 : Int)).toList <:+: m.toList) ∧
    (∃ hint, (execute_freecad_script envExitOne "u1".toList).ret.errorHint = some hint ∧
      hint ≠ "") :=
  c8_nonzero_exit_failure_report.2.1 envExitOne "u1".toList 1 "" "" rfl rfl (by decide)

end FreecadServer
